import Mathlib

/-!
# Verification of the attendance forecast engine

A shallow embedding of `forecast_attendance` from `app.py` (the `/forecast`
handler).  Real-valued arithmetic of the Python/NumPy code is modelled over `ℝ`.
The process-wide random source is modelled as an injected sequence
`g : ℕ → ℝ` of standard Gaussian samples (`np.random.normal(0, s)` is `s * z`
with `z` a standard-normal draw, so a draw with scale `s` is embedded as
`s * g i`).  The external SARIMAX fit-and-forecast call (the body of the inner
`try:` block) is an opaque library call; it is modelled as an oracle parameter
`sarima : Option (List ℝ)` — `some l` is a successful fit whose point forecast
is `l`, `none` is any exception raised during fitting or forecast extraction.
-/

noncomputable section

namespace Forecast

/-- Response of the `/forecast` endpoint: either a success JSON object with a
`forecast` list and a `method` tag, or a failure JSON object with an `error`
string (the outer `except` branch). -/
inductive Response where
  | ok (forecast : List ℝ) (method : String)
  | err (error : String)
  deriving DecidableEq

/-- The `success` field of the JSON response. -/
def Response.success : Response → Bool
  | .ok _ _ => true
  | .err _ => false

/-- The `forecast` field of the JSON response (absent on failure). -/
def Response.getForecast : Response → Option (List ℝ)
  | .ok f _ => some f
  | .err _ => none

/-- The `method` field of the JSON response (absent on failure). -/
def Response.getMethod : Response → Option String
  | .ok _ m => some m
  | .err _ => none

/-- The `error` field of the JSON response (absent on success). -/
def Response.getError : Response → Option String
  | .ok _ _ => none
  | .err e => some e

/-- `np.mean` of a list: sum divided by length. -/
def mean (l : List ℝ) : ℝ := l.sum / l.length

/-- `np.std` of a list (population standard deviation, `ddof=0`):
square root of the mean squared deviation from the mean. -/
def stdDev (l : List ℝ) : ℝ :=
  Real.sqrt (((l.map fun x => (x - mean l) ^ 2).sum) / l.length)

/-- `np.clip(x, 0, 1)` applied to one element. -/
def clip01 (x : ℝ) : ℝ := min (max x 0) 1

/-- Accumulation of `weekly_pattern[d] += val` over
`for i, val in enumerate(recent_data)` restricted to indices `i ≡ d [MOD 7]`;
the auxiliary first argument is the running index `i`. -/
def daySumAux : ℕ → List ℝ → ℕ → ℝ
  | _, [], _ => 0
  | i, x :: xs, d => (if i % 7 = d then x else 0) + daySumAux (i + 1) xs d

/-- `weekly_pattern[d]` before normalisation: sum of the values at positions
`≡ d [MOD 7]`. -/
def daySum (hist : List ℝ) (d : ℕ) : ℝ := daySumAux 0 hist d

/-- Accumulation of `weekly_counts[d] += 1` over the enumerated history. -/
def dayCountAux : ℕ → List ℝ → ℕ → ℕ
  | _, [], _ => 0
  | i, _ :: xs, d => (if i % 7 = d then 1 else 0) + dayCountAux (i + 1) xs d

/-- `weekly_counts[d]`: how many positions of the history are `≡ d [MOD 7]`. -/
def dayCount (hist : List ℝ) (d : ℕ) : ℕ := dayCountAux 0 hist d

/-- `weekly_pattern = weekly_pattern / np.maximum(weekly_counts, 1)`:
the per-weekday mean, guarded against empty weekday buckets. -/
def weeklyPattern (hist : List ℝ) (d : ℕ) : ℝ :=
  daySum hist d / (max (dayCount hist d) 1 : ℕ)

/-- `weekly_mean = np.mean(weekly_pattern)`: mean of the 7 per-weekday means. -/
def weeklyMean (hist : List ℝ) : ℝ :=
  ((List.range 7).map (weeklyPattern hist)).sum / 7

/-- `weekly_factors = weekly_pattern / weekly_mean if weekly_mean > 0
else np.ones(7)`. -/
def weeklyFactors (hist : List ℝ) (d : ℕ) : ℝ :=
  if 0 < weeklyMean hist then weeklyPattern hist d / weeklyMean hist else 1

/-- `window = min(14, len(recent_data))`. -/
def window (hist : List ℝ) : ℕ := min 14 hist.length

/-- `recent_trend = np.mean(recent_data[-window:]) -
np.mean(recent_data[-2*window:-window]) if len(recent_data) >= 2*window
else 0`. -/
def recentTrend (hist : List ℝ) : ℝ :=
  if 2 * window hist ≤ hist.length then
    mean (hist.drop (hist.length - window hist)) -
      mean ((hist.drop (hist.length - 2 * window hist)).take (window hist))
  else 0

/-- The manual fallback of the `except` branch: for each future offset `i`,
`base_value * weekly_factors[(len(recent_data)+i) % 7] +
recent_trend * (i/7) * 0.5` where `base_value = np.mean(recent_data[-7:])`.
`range(periods)` is empty when `periods ≤ 0`, hence `List.range periods.toNat`. -/
def fallbackForecast (hist : List ℝ) (periods : ℤ) : List ℝ :=
  (List.range periods.toNat).map fun i =>
    mean (hist.drop (hist.length - 7)) * weeklyFactors hist ((hist.length + i) % 7)
      + recentTrend hist * ((i : ℝ) / 7) * 0.5

/-- Raw forecast produced by the `try/except` around the SARIMAX call:
the model's point forecast on success, the manual fallback on any exception. -/
def rawForecast (hist : List ℝ) (periods : ℤ) (sarima : Option (List ℝ)) : List ℝ :=
  match sarima with
  | some l => l
  | none => fallbackForecast hist periods

/-- The reseasonalisation loop:
`forecast_values[i] *= (0.7 + 0.3 * weekly_factors[(len(recent_data)+i) % 7])`. -/
def reseason (hist : List ℝ) (fv : List ℝ) : List ℝ :=
  (List.range fv.length).map fun i =>
    fv.getD i 0 * (0.7 + 0.3 * weeklyFactors hist ((hist.length + i) % 7))

/-- `forecast_values + np.random.normal(0, std * 0.08, size=len(forecast_values))`
with `std = np.std(recent_data)`; the `i`-th Gaussian draw is `g i`. -/
def addNoise (hist : List ℝ) (g : ℕ → ℝ) (fv : List ℝ) : List ℝ :=
  (List.range fv.length).map fun i =>
    fv.getD i 0 + stdDev hist * 0.08 * g i

/-- Full discrete convolution `np.convolve(a, v)`:
output length `len(a) + len(v) - 1`, entry `k` is `Σ_j a[j] * v[k-j]`
(out-of-range positions contribute 0). -/
def convFull (a v : List ℝ) : List ℝ :=
  (List.range (a.length + v.length - 1)).map fun k =>
    ∑ j ∈ Finset.range (k + 1), a.getD j 0 * v.getD (k - j) 0

/-- `np.convolve(a, v, mode='same')`: the centred slice of the full
convolution, of length `max(len(a), len(v))`, starting at `(len(v)-1)/2`
(for the use here `len(a) ≥ len(v)`). -/
def convSame (a v : List ℝ) : List ℝ :=
  ((convFull a v).drop ((v.length - 1) / 2)).take (max a.length v.length)

/-- The smoothing kernel `[0.25, 0.5, 0.25]`. -/
def kernel3 : List ℝ := [0.25, 0.5, 0.25]

/-- `if len(forecast_values) >= 3: forecast_values =
np.convolve(forecast_values, [0.25, 0.5, 0.25], mode='same')`. -/
def smoothStep (l : List ℝ) : List ℝ :=
  if 3 ≤ l.length then convSame l kernel3 else l

/-- The `/forecast` handler `forecast_attendance` of `app.py`.
`hist` is `attendance_data`, `periods` the requested horizon (an `int` in the
request, possibly non-positive), `g` the injected sequence of standard
Gaussian samples, `sarima` the outcome of the SARIMAX fit-and-forecast call. -/
def forecast_attendance (hist : List ℝ) (periods : ℤ) (g : ℕ → ℝ)
    (sarima : Option (List ℝ)) : Response :=
  if hist.length < 1 then
    Response.err "No attendance data provided"
  else if hist.length < 14 then
    Response.ok
      (((List.range periods.toNat).map fun i =>
          mean hist + stdDev hist * 0.1 * g i).map clip01)
      "simple_average"
  else
    Response.ok
      ((smoothStep (addNoise hist g
          (reseason hist (rawForecast hist periods sarima)))).map clip01)
      "sarima_enhanced"

/-! ## Basic lemmas about the embedded operations -/

lemma getD_range_map (f : ℕ → ℝ) {n i : ℕ} (h : i < n) :
    ((List.range n).map f).getD i 0 = f i := by
  rw [List.getD_eq_getElem?_getD, List.getElem?_map, List.getElem?_range h]
  rfl

lemma getD_range_map_of_le (f : ℕ → ℝ) {n i : ℕ} (h : n ≤ i) :
    ((List.range n).map f).getD i 0 = 0 := by
  apply List.getD_eq_default
  simpa using h

lemma clip01_nonneg (x : ℝ) : 0 ≤ clip01 x := by
  unfold clip01
  exact le_min (le_max_right x 0) zero_le_one

lemma clip01_le_one (x : ℝ) : clip01 x ≤ 1 := min_le_right _ _

lemma reseason_length (hist fv : List ℝ) :
    (reseason hist fv).length = fv.length := by
  simp [reseason]

lemma addNoise_length (hist : List ℝ) (g : ℕ → ℝ) (fv : List ℝ) :
    (addNoise hist g fv).length = fv.length := by
  simp [addNoise]

lemma kernel3_length : kernel3.length = 3 := rfl

lemma convFull_length (a v : List ℝ) :
    (convFull a v).length = a.length + v.length - 1 := by
  simp [convFull]

lemma convSame_kernel3_length (a : List ℝ) (h : 3 ≤ a.length) :
    (convSame a kernel3).length = a.length := by
  rw [convSame, List.length_take, List.length_drop, convFull_length,
    kernel3_length]
  omega

lemma smoothStep_length (l : List ℝ) : (smoothStep l).length = l.length := by
  unfold smoothStep
  split
  · exact convSame_kernel3_length l (by assumption)
  · rfl

lemma fallbackForecast_length (hist : List ℝ) (periods : ℤ) :
    (fallbackForecast hist periods).length = periods.toNat := by
  simp [fallbackForecast]

/-- Contract of the external `model_fit.forecast(steps=periods)` call: when the
fit succeeds, the point forecast has exactly `periods` entries
(`range`-style: none for a non-positive `steps`). -/
def sarimaLenOk (periods : ℤ) (sarima : Option (List ℝ)) : Prop :=
  ∀ l, sarima = some l → l.length = periods.toNat

lemma rawForecast_length (hist : List ℝ) (periods : ℤ)
    (sarima : Option (List ℝ)) (hs : sarimaLenOk periods sarima) :
    (rawForecast hist periods sarima).length = periods.toNat := by
  cases sarima with
  | some l => exact hs l rfl
  | none => exact fallbackForecast_length hist periods

lemma mem_map_clip01 (l : List ℝ) : ∀ x ∈ l.map clip01, 0 ≤ x ∧ x ≤ 1 := by
  intro x hx
  obtain ⟨y, _, rfl⟩ := List.mem_map.1 hx
  exact ⟨clip01_nonneg y, clip01_le_one y⟩

lemma kernel3_getD_zero : kernel3.getD 0 0 = 0.25 := rfl

lemma kernel3_getD_one : kernel3.getD 1 0 = 0.5 := rfl

lemma kernel3_getD_two : kernel3.getD 2 0 = 0.25 := rfl

lemma kernel3_getD_of_le (m : ℕ) (h : 3 ≤ m) : kernel3.getD m 0 = 0 :=
  List.getD_eq_default _ _ (by simpa [kernel3] using h)

/-- Entry `i` of the full convolution with the 3-tap kernel, written as the
explicit weighted sum of the (zero-padded) neighbours. -/
lemma convFull_kernel3_entry (a : List ℝ) (i : ℕ) :
    (∑ j ∈ Finset.range (i + 1 + 1), a.getD j 0 * kernel3.getD (i + 1 - j) 0) =
      0.25 * (if i = 0 then 0 else a.getD (i - 1) 0)
        + 0.5 * a.getD i 0 + 0.25 * a.getD (i + 1) 0 := by
  cases i with
  | zero =>
    rw [Finset.sum_range_succ, Finset.sum_range_one]
    rw [if_pos rfl]
    have e0 : (0 : ℕ) + 1 - 0 = 1 := rfl
    have e1 : (0 : ℕ) + 1 - 1 = 0 := rfl
    rw [e0, e1, kernel3_getD_zero, kernel3_getD_one]
    ring
  | succ j =>
    rw [Finset.sum_range_succ, Finset.sum_range_succ, Finset.sum_range_succ]
    have hz : (∑ l ∈ Finset.range j,
        a.getD l 0 * kernel3.getD (j + 1 + 1 - l) 0) = 0 := by
      apply Finset.sum_eq_zero
      intro l hl
      rw [kernel3_getD_of_le _ (by simp at hl; omega), mul_zero]
    rw [hz]
    have e2 : j + 1 + 1 - j = 2 := by omega
    have e1 : j + 1 + 1 - (j + 1) = 1 := by omega
    have e0 : j + 1 + 1 - (j + 1 + 1) = 0 := by omega
    rw [e2, e1, e0, kernel3_getD_zero, kernel3_getD_one, kernel3_getD_two]
    rw [if_neg (Nat.succ_ne_zero j)]
    have ej : j + 1 - 1 = j := rfl
    rw [ej]
    ring

lemma convFull_getElem (a v : List ℝ) {k : ℕ}
    (hk : k < (convFull a v).length) :
    (convFull a v)[k] =
      ∑ j ∈ Finset.range (k + 1), a.getD j 0 * v.getD (k - j) 0 := by
  unfold convFull at hk ⊢
  rw [List.getElem_map, List.getElem_range]

/-- `np.convolve(a, [0.25, 0.5, 0.25], mode='same')` computes, at every index,
the 3-tap weighted average with out-of-range taps treated as zero. -/
lemma convSame_kernel3_getD (a : List ℝ) (ha : 3 ≤ a.length) {i : ℕ}
    (hi : i < a.length) :
    (convSame a kernel3).getD i 0 =
      0.25 * (if i = 0 then 0 else a.getD (i - 1) 0)
        + 0.5 * a.getD i 0 + 0.25 * a.getD (i + 1) 0 := by
  have hlen : (convSame a kernel3).length = a.length :=
    convSame_kernel3_length a ha
  have hi' : i < (convSame a kernel3).length := by omega
  rw [List.getD_eq_getElem?_getD, List.getElem?_eq_getElem hi',
    Option.getD_some]
  unfold convSame at hi' ⊢
  rw [List.getElem_take, List.getElem_drop]
  rw [convFull_getElem]
  have hidx : (kernel3.length - 1) / 2 + i = i + 1 := by
    have : kernel3.length = 3 := rfl
    omega
  simp only [hidx]
  exact convFull_kernel3_entry a i

/-! ## Claims -/

/-- C1: for every non-empty history with all elements in `[0,1]` and every
positive horizon, the successful response's forecast list has length exactly
the requested horizon and every element lies in `[0,1]`, on both the
simple-average path and the seasonal path (given the length contract of the
external SARIMAX forecast call). -/
theorem forecast_length_and_bounds (hist : List ℝ) (periods : ℤ) (g : ℕ → ℝ)
    (sarima : Option (List ℝ)) (hne : 1 ≤ hist.length)
    (_hvals : ∀ x ∈ hist, 0 ≤ x ∧ x ≤ 1) (hp : 0 < periods)
    (hs : sarimaLenOk periods sarima) :
    ∃ vs, (forecast_attendance hist periods g sarima).getForecast = some vs ∧
      (vs.length : ℤ) = periods ∧ ∀ x ∈ vs, 0 ≤ x ∧ x ≤ 1 := by
  have htn : (periods.toNat : ℤ) = periods := Int.toNat_of_nonneg hp.le
  unfold forecast_attendance
  rw [if_neg (by omega)]
  by_cases h14 : hist.length < 14
  · rw [if_pos h14]
    refine ⟨_, rfl, ?_, mem_map_clip01 _⟩
    simpa using htn
  · rw [if_neg h14]
    refine ⟨_, rfl, ?_, mem_map_clip01 _⟩
    rw [List.length_map, smoothStep_length, addNoise_length, reseason_length,
      rawForecast_length hist periods sarima hs]
    exact htn

/-- Witness for C1 at history `[1/2]`, horizon `3`, zero noise, failed fit. -/
theorem forecast_length_and_bounds_witness :
    ∃ vs, (forecast_attendance [(1 : ℝ)/2] 3 (fun _ => 0) none).getForecast
        = some vs ∧ (vs.length : ℤ) = 3 ∧ ∀ x ∈ vs, 0 ≤ x ∧ x ≤ 1 :=
  forecast_length_and_bounds [(1 : ℝ)/2] 3 (fun _ => 0) none (by simp)
    (by intro x hx; rw [List.mem_singleton] at hx; subst hx; norm_num)
    (by decide) (by intro l hl; simp at hl)

/-- C2: a successful response's method tag is `simple_average` exactly when
the history length is `< 14` and `sarima_enhanced` exactly when it is `≥ 14`,
independently of the outcome of the internal seasonal-model fit. -/
theorem method_tag_by_history_length (hist : List ℝ) (periods : ℤ)
    (g : ℕ → ℝ) (sarima : Option (List ℝ)) (hne : 1 ≤ hist.length) :
    ((forecast_attendance hist periods g sarima).getMethod
        = some "simple_average" ↔ hist.length < 14) ∧
    ((forecast_attendance hist periods g sarima).getMethod
        = some "sarima_enhanced" ↔ 14 ≤ hist.length) := by
  unfold forecast_attendance
  rw [if_neg (by omega)]
  by_cases h14 : hist.length < 14
  · rw [if_pos h14]
    constructor
    · simp [Response.getMethod, h14]
    · rw [Response.getMethod]
      constructor
      · intro hc
        exact absurd (Option.some.inj hc) (by decide)
      · omega
  · rw [if_neg h14]
    constructor
    · rw [Response.getMethod]
      constructor
      · intro hc
        exact absurd (Option.some.inj hc) (by decide)
      · omega
    · rw [Response.getMethod]
      constructor
      · intro _
        omega
      · intro _
        rfl

/-- Witness for C2 at history `[1/2]` (length 1 < 14). -/
theorem method_tag_by_history_length_witness :
    ((forecast_attendance [(1 : ℝ)/2] 5 (fun _ => 0) none).getMethod
        = some "simple_average" ↔ [(1 : ℝ)/2].length < 14) ∧
    ((forecast_attendance [(1 : ℝ)/2] 5 (fun _ => 0) none).getMethod
        = some "sarima_enhanced" ↔ 14 ≤ [(1 : ℝ)/2].length) :=
  method_tag_by_history_length [(1 : ℝ)/2] 5 (fun _ => 0) none (by simp)

/-- C3 counterexample: on an empty history the failure response's error
message is `"No attendance data provided"` (the `str` of the raised
`ValueError`), not the literal `"no data provided"` the claim asserts. -/
theorem empty_history_message_counterexample :
    (forecast_attendance [] 30 (fun _ => 0) none).getError
        = some "No attendance data provided" ∧
    "No attendance data provided" ≠ "no data provided" := by
  exact ⟨rfl, by decide⟩

/-- C3 (amended): for an empty history and any horizon the forecast
operation fails, producing `{ success: false, error: string }` with error
message `"No attendance data provided"` and no forecast values. -/
theorem empty_history_fails (periods : ℤ) (g : ℕ → ℝ)
    (sarima : Option (List ℝ)) :
    (forecast_attendance [] periods g sarima).success = false ∧
    (forecast_attendance [] periods g sarima).getError
        = some "No attendance data provided" ∧
    (forecast_attendance [] periods g sarima).getForecast = none :=
  ⟨rfl, rfl, rfl⟩

/-- C5: when the seasonal-model fit fails the raw forecast is the fallback,
whose `i`-th entry is
`mean(last 7) * WeeklyProfile[(len+i) % 7] + TrendEstimate * (i/7) * 0.5`,
with `TrendEstimate` the difference of the means of the last
`min(14, len)`-sized window and the window before it (0 when the history is
shorter than twice the window). -/
theorem fallback_formula (hist : List ℝ) (periods : ℤ) (i : ℕ)
    (hi : i < periods.toNat) :
    rawForecast hist periods none = fallbackForecast hist periods ∧
    (fallbackForecast hist periods).getD i 0 =
      mean (hist.drop (hist.length - 7)) *
          weeklyFactors hist ((hist.length + i) % 7)
        + recentTrend hist * ((i : ℝ) / 7) * 0.5 ∧
    recentTrend hist =
      (if 2 * min 14 hist.length ≤ hist.length then
        mean (hist.drop (hist.length - min 14 hist.length)) -
          mean ((hist.drop (hist.length - 2 * min 14 hist.length)).take
            (min 14 hist.length))
      else 0) := by
  refine ⟨rfl, ?_, rfl⟩
  unfold fallbackForecast
  exact getD_range_map _ hi

/-- Witness for C5 at a length-14 history, horizon 1, offset 0. -/
theorem fallback_formula_witness :
    rawForecast (List.replicate 14 ((1 : ℝ)/2)) 1 none
        = fallbackForecast (List.replicate 14 ((1 : ℝ)/2)) 1 ∧
    (fallbackForecast (List.replicate 14 ((1 : ℝ)/2)) 1).getD 0 0 =
      mean ((List.replicate 14 ((1 : ℝ)/2)).drop
          ((List.replicate 14 ((1 : ℝ)/2)).length - 7)) *
          weeklyFactors (List.replicate 14 ((1 : ℝ)/2))
            (((List.replicate 14 ((1 : ℝ)/2)).length + 0) % 7)
        + recentTrend (List.replicate 14 ((1 : ℝ)/2)) * (((0 : ℕ) : ℝ) / 7) * 0.5 ∧
    recentTrend (List.replicate 14 ((1 : ℝ)/2)) =
      (if 2 * min 14 (List.replicate 14 ((1 : ℝ)/2)).length
          ≤ (List.replicate 14 ((1 : ℝ)/2)).length then
        mean ((List.replicate 14 ((1 : ℝ)/2)).drop
            ((List.replicate 14 ((1 : ℝ)/2)).length
              - min 14 (List.replicate 14 ((1 : ℝ)/2)).length)) -
          mean (((List.replicate 14 ((1 : ℝ)/2)).drop
            ((List.replicate 14 ((1 : ℝ)/2)).length
              - 2 * min 14 (List.replicate 14 ((1 : ℝ)/2)).length)).take
            (min 14 (List.replicate 14 ((1 : ℝ)/2)).length))
      else 0) :=
  fallback_formula (List.replicate 14 ((1 : ℝ)/2)) 1 0 (by decide)

/-- C8: internal fit failures are caught: for every non-empty history the
response succeeds (whatever the fit outcome), and a failed fit is redirected
to the fallback computation. -/
theorem nonempty_never_fails (hist : List ℝ) (periods : ℤ) (g : ℕ → ℝ)
    (sarima : Option (List ℝ)) (hne : 1 ≤ hist.length) :
    (forecast_attendance hist periods g sarima).success = true ∧
    rawForecast hist periods none = fallbackForecast hist periods := by
  refine ⟨?_, rfl⟩
  unfold forecast_attendance
  rw [if_neg (by omega)]
  split <;> rfl

/-- Witness for C8 at history `[1/2]` with a failed fit. -/
theorem nonempty_never_fails_witness :
    (forecast_attendance [(1 : ℝ)/2] 2 (fun _ => 0) none).success = true ∧
    rawForecast [(1 : ℝ)/2] 2 none = fallbackForecast [(1 : ℝ)/2] 2 :=
  nonempty_never_fails [(1 : ℝ)/2] 2 (fun _ => 0) none (by simp)

/-- C9: with the random source held fixed, two calls with identical history,
horizon and fit outcome produce identical responses (hence identical forecast
values and method tag). -/
theorem forecast_deterministic (h1 h2 : List ℝ) (p1 p2 : ℤ)
    (g1 g2 : ℕ → ℝ) (s1 s2 : Option (List ℝ)) (hh : h1 = h2) (hp : p1 = p2)
    (hg : g1 = g2) (hs : s1 = s2) :
    forecast_attendance h1 p1 g1 s1 = forecast_attendance h2 p2 g2 s2 ∧
    (forecast_attendance h1 p1 g1 s1).getMethod
        = (forecast_attendance h2 p2 g2 s2).getMethod := by
  subst hh hp hg hs
  exact ⟨rfl, rfl⟩

/-- Witness for C9: two identical calls at history `[1/2]`. -/
theorem forecast_deterministic_witness :
    forecast_attendance [(1 : ℝ)/2] 4 (fun _ => 1) none
        = forecast_attendance [(1 : ℝ)/2] 4 (fun _ => 1) none ∧
    (forecast_attendance [(1 : ℝ)/2] 4 (fun _ => 1) none).getMethod
        = (forecast_attendance [(1 : ℝ)/2] 4 (fun _ => 1) none).getMethod :=
  forecast_deterministic [(1 : ℝ)/2] [(1 : ℝ)/2] 4 4 (fun _ => 1) (fun _ => 1)
    none none rfl rfl rfl rfl

/-- C10: the horizon's positivity is never validated: for every non-empty
history and every `periods ≤ 0` the call still succeeds, with an empty
forecast list, on both the simple-average and the seasonal path. -/
theorem nonpositive_periods_empty_success (hist : List ℝ) (periods : ℤ)
    (g : ℕ → ℝ) (sarima : Option (List ℝ)) (hne : 1 ≤ hist.length)
    (hp : periods ≤ 0) (hs : sarimaLenOk periods sarima) :
    (forecast_attendance hist periods g sarima).success = true ∧
    (forecast_attendance hist periods g sarima).getForecast = some [] := by
  have h0 : periods.toNat = 0 := by omega
  have hraw : rawForecast hist periods sarima = [] :=
    List.eq_nil_of_length_eq_zero
      (by rw [rawForecast_length hist periods sarima hs, h0])
  unfold forecast_attendance
  rw [if_neg (by omega)]
  by_cases h14 : hist.length < 14
  · rw [if_pos h14]
    simp [h0, Response.success, Response.getForecast]
  · rw [if_neg h14, hraw]
    simp [reseason, addNoise, smoothStep, Response.success, Response.getForecast]

/-- Witness for C10 at history `[1/2]` and horizon `-3`. -/
theorem nonpositive_periods_empty_success_witness :
    (forecast_attendance [(1 : ℝ)/2] (-3) (fun _ => 0) none).success = true ∧
    (forecast_attendance [(1 : ℝ)/2] (-3) (fun _ => 0) none).getForecast
        = some [] :=
  nonpositive_periods_empty_success [(1 : ℝ)/2] (-3) (fun _ => 0) none
    (by simp) (by decide) (by intro l hl; simp at hl)

/-- C6: on the seasonal path every returned value passes through
reseasonalization, then noise injection, then (optional smoothing and)
clamping: the response is exactly the clamped image of that pipeline applied
to the raw forecast, and the two first steps have the stated pointwise form
(`· * (0.7 + 0.3 * WeeklyProfile[(len+i) % 7])`, then `· + 0.08 * σ * g i`
with `σ` the standard deviation of the full history). -/
theorem seasonal_pipeline (hist : List ℝ) (periods : ℤ) (g : ℕ → ℝ)
    (sarima : Option (List ℝ)) (h14 : 14 ≤ hist.length) :
    forecast_attendance hist periods g sarima =
      Response.ok
        ((smoothStep (addNoise hist g
            (reseason hist (rawForecast hist periods sarima)))).map clip01)
        "sarima_enhanced" ∧
    (∀ fv : List ℝ, reseason hist fv =
      (List.range fv.length).map fun i =>
        fv.getD i 0 * (0.7 + 0.3 * weeklyFactors hist ((hist.length + i) % 7))) ∧
    (∀ fv : List ℝ, addNoise hist g fv =
      (List.range fv.length).map fun i =>
        fv.getD i 0 + stdDev hist * 0.08 * g i) ∧
    (∀ x : ℝ, clip01 x = min (max x 0) 1) := by
  refine ⟨?_, fun fv => rfl, fun fv => rfl, fun x => rfl⟩
  unfold forecast_attendance
  rw [if_neg (by omega), if_neg (by omega)]

/-- Witness for C6 at a length-14 history. -/
theorem seasonal_pipeline_witness :
    forecast_attendance (List.replicate 14 ((1 : ℝ)/2)) 7 (fun _ => 0) none =
      Response.ok
        ((smoothStep (addNoise (List.replicate 14 ((1 : ℝ)/2)) (fun _ => 0)
            (reseason (List.replicate 14 ((1 : ℝ)/2))
              (rawForecast (List.replicate 14 ((1 : ℝ)/2)) 7 none)))).map clip01)
        "sarima_enhanced" ∧
    (∀ fv : List ℝ, reseason (List.replicate 14 ((1 : ℝ)/2)) fv =
      (List.range fv.length).map fun i =>
        fv.getD i 0 * (0.7 + 0.3 * weeklyFactors (List.replicate 14 ((1 : ℝ)/2))
          (((List.replicate 14 ((1 : ℝ)/2)).length + i) % 7))) ∧
    (∀ fv : List ℝ, addNoise (List.replicate 14 ((1 : ℝ)/2)) (fun _ => 0) fv =
      (List.range fv.length).map fun i =>
        fv.getD i 0 + stdDev (List.replicate 14 ((1 : ℝ)/2)) * 0.08 *
          (fun _ : ℕ => (0 : ℝ)) i) ∧
    (∀ x : ℝ, clip01 x = min (max x 0) 1) :=
  seasonal_pipeline (List.replicate 14 ((1 : ℝ)/2)) 7 (fun _ => 0) none
    (by simp)

/-- C7: on the seasonal path the smoothing step fires exactly when the
horizon is at least 3 (given the length contract of the external forecast
call): for `periods ≥ 3` the noisy series is convolved with the kernel
`[0.25, 0.5, 0.25]` in same-length mode — each entry becomes the 3-tap
weighted average with out-of-range taps treated as zero, the length being
preserved — and for `periods < 3` it is passed through unsmoothed. -/
theorem smoothing_exactly_when_horizon_ge_three (hist : List ℝ)
    (periods : ℤ) (g : ℕ → ℝ) (sarima : Option (List ℝ))
    (h14 : 14 ≤ hist.length) (hs : sarimaLenOk periods sarima) :
    let fv2 := addNoise hist g (reseason hist (rawForecast hist periods sarima))
    ((3 ≤ periods →
        forecast_attendance hist periods g sarima =
          Response.ok ((convSame fv2 kernel3).map clip01) "sarima_enhanced" ∧
        (convSame fv2 kernel3).length = fv2.length ∧
        ∀ i < fv2.length, (convSame fv2 kernel3).getD i 0 =
          0.25 * (if i = 0 then 0 else fv2.getD (i - 1) 0)
            + 0.5 * fv2.getD i 0 + 0.25 * fv2.getD (i + 1) 0) ∧
      (periods < 3 →
        forecast_attendance hist periods g sarima =
          Response.ok (fv2.map clip01) "sarima_enhanced")) := by
  intro fv2
  have hlen2 : fv2.length = periods.toNat := by
    rw [addNoise_length, reseason_length,
      rawForecast_length hist periods sarima hs]
  have hmain : forecast_attendance hist periods g sarima =
      Response.ok ((smoothStep fv2).map clip01) "sarima_enhanced" := by
    unfold forecast_attendance
    rw [if_neg (by omega), if_neg (by omega)]
  constructor
  · intro hp3
    have h3 : 3 ≤ fv2.length := by omega
    have hsm : smoothStep fv2 = convSame fv2 kernel3 := by
      unfold smoothStep
      rw [if_pos h3]
    refine ⟨by rw [hmain, hsm], convSame_kernel3_length fv2 h3, ?_⟩
    intro i hi
    exact convSame_kernel3_getD fv2 h3 hi
  · intro hp3
    have hsm : smoothStep fv2 = fv2 := by
      unfold smoothStep
      rw [if_neg (by omega)]
    rw [hmain, hsm]

/-- Witness for C7 at a length-14 history and horizon 3 (smoothing branch). -/
theorem smoothing_exactly_when_horizon_ge_three_witness :
    let fv2 := addNoise (List.replicate 14 ((1 : ℝ)/2)) (fun _ => 0)
      (reseason (List.replicate 14 ((1 : ℝ)/2))
        (rawForecast (List.replicate 14 ((1 : ℝ)/2)) 3 none))
    (((3 : ℤ) ≤ 3 →
        forecast_attendance (List.replicate 14 ((1 : ℝ)/2)) 3 (fun _ => 0) none =
          Response.ok ((convSame fv2 kernel3).map clip01) "sarima_enhanced" ∧
        (convSame fv2 kernel3).length = fv2.length ∧
        ∀ i < fv2.length, (convSame fv2 kernel3).getD i 0 =
          0.25 * (if i = 0 then 0 else fv2.getD (i - 1) 0)
            + 0.5 * fv2.getD i 0 + 0.25 * fv2.getD (i + 1) 0) ∧
      ((3 : ℤ) < 3 →
        forecast_attendance (List.replicate 14 ((1 : ℝ)/2)) 3 (fun _ => 0) none =
          Response.ok (fv2.map clip01) "sarima_enhanced")) :=
  smoothing_exactly_when_horizon_ge_three (List.replicate 14 ((1 : ℝ)/2)) 3
    (fun _ => 0) none (by simp) (by intro l hl; simp at hl)

/-- A 14-day history (two identical weeks) whose weekday 0 is always 0 while
the other weekdays are 1: weekday 0 has zero observed mean although the
overall weekly mean is positive. -/
def hist14 : List ℝ := [0, 1, 1, 1, 1, 1, 1, 0, 1, 1, 1, 1, 1, 1]

lemma hist14_pattern_zero : weeklyPattern hist14 0 = 0 := by
  norm_num [weeklyPattern, daySum, daySumAux, dayCount, dayCountAux, hist14]

lemma hist14_weeklyMean : weeklyMean hist14 = 6 / 7 := by
  norm_num [weeklyMean, List.range_succ, weeklyPattern, daySum, daySumAux,
    dayCount, dayCountAux, hist14]

/-- C4 counterexample: in `hist14` (length 14, all values in `[0,1]`) weekday
0 has per-weekday mean 0, yet its seasonality factor is `0`, not the claimed
`1.0` — the `1.0` guard is keyed on the overall weekly mean, not on the
individual weekday mean. -/
theorem weekly_factor_zero_mean_counterexample :
    14 ≤ hist14.length ∧ (∀ x ∈ hist14, 0 ≤ x ∧ x ≤ 1) ∧
    weeklyPattern hist14 0 = 0 ∧ weeklyFactors hist14 0 = 0 ∧
    weeklyFactors hist14 0 ≠ 1 := by
  have hf : weeklyFactors hist14 0 = 0 := by
    unfold weeklyFactors
    rw [hist14_weeklyMean, hist14_pattern_zero, if_pos (by norm_num)]
    norm_num
  refine ⟨by norm_num [hist14], ?_, hist14_pattern_zero, hf,
    by rw [hf]; norm_num⟩
  intro x hx
  simp only [hist14, List.mem_cons, List.not_mem_nil, or_false] at hx
  rcases hx with rfl | rfl | rfl | rfl | rfl | rfl | rfl | rfl | rfl | rfl |
    rfl | rfl | rfl | rfl <;> norm_num

/-- C4 (amended): a day-of-week with zero observed per-weekday mean receives
factor `1.0` only when the overall weekly mean is not positive; when the
overall weekly mean is positive such a day receives factor `0`. -/
theorem weekly_factor_zero_mean (hist : List ℝ) (d : ℕ)
    (h : weeklyPattern hist d = 0) :
    weeklyFactors hist d = if 0 < weeklyMean hist then 0 else 1 := by
  by_cases hc : 0 < weeklyMean hist
  · unfold weeklyFactors
    rw [if_pos hc, if_pos hc, h, zero_div]
  · unfold weeklyFactors
    rw [if_neg hc, if_neg hc]

/-- Witness for the amended C4 at `hist14`, weekday 0. -/
theorem weekly_factor_zero_mean_witness :
    weeklyFactors hist14 0 = if 0 < weeklyMean hist14 then 0 else 1 :=
  weekly_factor_zero_mean hist14 0 hist14_pattern_zero

end Forecast

end
